import Mathlib

/-!
Shallow embedding of `src/DirVisArcGIS/viewshed_generation.py`
(DirectionalVisibilityTools).

The script iterates the rows of an observer point layer and a list of
observer offsets, calling the external `arcpy.sa.Viewshed2` engine once per
(observer, offset) pair and saving each result raster into the current
geodatabase under a generated name.

Modelling choices:
* Side effects (logging via `arcpy.AddMessage` / `arcpy.AddError`, field
  creation, update-cursor writes, `MakeFeatureLayer`, the `Viewshed2` call,
  `raster.save`, `Delete_management`) are recorded in an explicit event
  trace, in program order.  Bare `print` calls duplicate the adjacent
  `AddMessage`/`AddError` text on stdout and are not separately evented.
* The external engine is an oracle `Engine` with two fallible operations:
  the `Viewshed2` analysis itself and the subsequent raster save.  A Python
  exception is the `Except.error` case carrying the message string.
* Python floats are modelled as rationals; `int()` on a float truncates
  toward zero, modelled by `ratTrunc`.
* A raised exception that propagates out of a procedure is `RunResult.error
  = some msg`; `none` means the procedure returned normally.
* `arcpy.env.workspace` / `arcpy.env.scratchGDB` are `Option String`;
  Python truthiness on them (`x or y`, `if not x`) treats `None` and the
  empty string as falsy.
-/

deriving instance DecidableEq for Except

/-- A row of the observer feature table: its `OBJECTID` and its `SiteID`
attribute.  When the layer does not yet have a `SiteID` field the stored
`siteID` values are not observable by the script (it never reads them before
populating them). -/
structure Row where
  objectid : Nat
  siteID : Int
deriving Repr, DecidableEq

/-- The observer point feature layer: its field-name list and its rows. -/
structure ObserverLayer where
  fields : List String
  rows : List Row
deriving Repr, DecidableEq

/-- The relevant part of `arcpy.env`. -/
structure ArcEnv where
  workspace : Option String
  scratchGDB : Option String
deriving Repr, DecidableEq

/-- The argument record of one `arcpy.sa.Viewshed2` call, as assembled at
lines 59-67 of the source. -/
structure AnalysisCall where
  in_raster : String
  in_observer_features : List Row
  analysis_type : String
  refractivity_coefficient : ℚ
  surface_offset : ℚ
  observer_offset : ℚ
  outer_radius : ℚ
deriving Repr, DecidableEq

/-- Observable side effects of the script, in program order. -/
inductive Event where
  | addFieldSiteID : Event
  | updateRow (objectid : Nat) : Event
  | message (s : String) : Event
  | errorMsg (s : String) : Event
  | makeFeatureLayer (siteID : Int) : Event
  | viewshed2 (call : AnalysisCall) : Event
  | saveRaster (path : String) : Event
  | deleteTemp : Event
deriving Repr, DecidableEq

/-- The external geoprocessing engine: the `Viewshed2` analysis and the
raster `save`, either of which may raise (return `.error msg`). -/
structure Engine where
  analyze : AnalysisCall → Except String Unit
  save : String → Except String Unit

/-- Result of running a procedure: its event trace, the final observer
layer, and `some msg` when an exception propagated out of it. -/
structure RunResult where
  events : List Event
  layer : ObserverLayer
  error : Option String
deriving Repr

/-- Python truthiness of an optional string: `None` and `""` are falsy. -/
def truthyStr : Option String → Bool
  | none => false
  | some s => s ≠ ""

/-- Python `a or b` on optional strings. -/
def pyOrStr (a b : Option String) : Option String :=
  if truthyStr a then a else b

/-- Python `int()` applied to a float (here: a rational): truncation toward
zero. -/
def ratTrunc (q : ℚ) : Int :=
  q.num.tdiv q.den

/-- Line 49: `output_name = f"vshed_{site_id}_{int(offset)}m"`. -/
def output_name (site_id : Int) (offset : ℚ) : String :=
  "vshed_" ++ toString site_id ++ "_" ++ toString (ratTrunc offset) ++ "m"

/-- Line 52: `os.path.join(current_gdb, output_name)` (POSIX separator). -/
def outputPath (gdb : String) (site_id : Int) (offset : ℚ) : String :=
  gdb ++ "/" ++ output_name site_id offset

/-- Lines 59-67: the argument record passed to `arcpy.sa.Viewshed2`. -/
def mkCall (dem : String) (filtered : List Row) (use_refraction : Bool)
    (offset outer_radius : ℚ) : AnalysisCall :=
  { in_raster := dem
    in_observer_features := filtered
    analysis_type := "FREQUENCY"
    refractivity_coefficient := if use_refraction then mkRat 13 100 else 0
    surface_offset := 0
    observer_offset := offset
    outer_radius := outer_radius }

/-- Lines 24-33: if the `SiteID` field is missing, add it and populate it
from `OBJECTID` with one update-cursor write per row; otherwise leave the
layer untouched.  Returns the resulting layer and the events performed. -/
def ensureSiteID (layer : ObserverLayer) : ObserverLayer × List Event :=
  if "SiteID" ∈ layer.fields then (layer, [])
  else
    ({ fields := layer.fields ++ ["SiteID"]
       rows := layer.rows.map fun r => { r with siteID := (r.objectid : Int) } },
     Event.addFieldSiteID :: layer.rows.map fun r => Event.updateRow r.objectid)

/-- Lines 48-78: the body of the inner (offset) loop for one observer.
`filtered` is the temporary feature layer made at line 43, i.e. the rows of
the layer satisfying `SiteID = site_id`. -/
def processOffset (eng : Engine) (gdb dem : String) (filtered : List Row)
    (use_refraction : Bool) (outer_radius : ℚ) (site_id : Int) (offset : ℚ) :
    List Event :=
  let path := outputPath gdb site_id offset
  let call := mkCall dem filtered use_refraction offset outer_radius
  let pre : List Event :=
    [Event.message ("Calculating viewshed for SiteID " ++ toString site_id ++
        " with observer offset " ++ toString offset ++ "m..."),
     Event.viewshed2 call]
  let failMsg (e : String) : Event :=
    Event.errorMsg ("Failed to calculate viewshed for SiteID " ++
      toString site_id ++ " at offset " ++ toString offset ++ ": " ++ e)
  match eng.analyze call with
  | Except.error e => pre ++ [failMsg e]
  | Except.ok _ =>
    match eng.save path with
    | Except.error e => pre ++ [failMsg e]
    | Except.ok _ =>
        pre ++ [Event.saveRaster path,
                Event.message ("Viewshed created: " ++ path)]

/-- Lines 37-81: the body of the outer (observer) loop for one cursor row:
make the temporary filtered layer, run every offset, delete the temporary
layer.  `allRows` is the row list of the (possibly just updated) layer the
cursors iterate. -/
def processRow (eng : Engine) (gdb dem : String) (allRows : List Row)
    (observer_offsets : List ℚ) (use_refraction : Bool) (outer_radius : ℚ)
    (row : Row) : List Event :=
  let site_id := row.siteID
  let filtered := allRows.filter fun r => r.siteID = site_id
  Event.makeFeatureLayer site_id ::
    ((observer_offsets.map
        (processOffset eng gdb dem filtered use_refraction outer_radius site_id)).flatten
      ++ [Event.deleteTemp])

/-- Lines 4-86: `generate_individual_viewsheds`.  Raises (error result) when
neither workspace nor scratch geodatabase is set; otherwise ensures the
`SiteID` field, then runs the observer loop with the offset loop nested
inside, catching per-iteration analysis/save failures. -/
def generate_individual_viewsheds (eng : Engine) (env : ArcEnv) (dem : String)
    (layer : ObserverLayer) (observer_offsets : List ℚ) (outer_radius : ℚ)
    (use_atmospheric_refraction : Bool) : RunResult :=
  let current_gdb := pyOrStr env.workspace env.scratchGDB
  if truthyStr current_gdb then
    let gdb := current_gdb.getD ""
    let ensured := ensureSiteID layer
    let layer2 := ensured.1
    let rowEvents :=
      (layer2.rows.map
        (processRow eng gdb dem layer2.rows observer_offsets
          use_atmospheric_refraction outer_radius)).flatten
    { events := ensured.2 ++ rowEvents ++
        [Event.message "All viewsheds generated successfully."]
      layer := layer2
      error := none }
  else
    { events := [], layer := layer,
      error := some "No current geodatabase is set." }

/-- The `Viewshed2` calls occurring in a trace, in order. -/
def viewshedCalls (evs : List Event) : List AnalysisCall :=
  evs.filterMap fun e =>
    match e with
    | Event.viewshed2 c => some c
    | _ => none

/-- The raster paths saved in a trace, in order. -/
def savedPaths (evs : List Event) : List String :=
  evs.filterMap fun e =>
    match e with
    | Event.saveRaster p => some p
    | _ => none

/-- Numeric value of a digit string. -/
def digitsVal (cs : List Char) : Nat :=
  cs.foldl (fun n c => n * 10 + (c.toNat - 48)) 0

/-- Python `str.split(sep)` for a one-character separator, on the
character list of the string: `"".split(";") = [""]`,
`"2;10".split(";") = ["2", "10"]`. -/
def pySplit (sep : Char) : List Char → List (List Char)
  | [] => [[]]
  | c :: cs =>
      if c = sep then [] :: pySplit sep cs
      else
        match pySplit sep cs with
        | [] => [[c]]
        | h :: t => (c :: h) :: t

/-- Strip leading and trailing whitespace (Python `float` accepts it
around the literal). -/
def trimChars (cs : List Char) : List Char :=
  ((cs.dropWhile Char.isWhitespace).reverse.dropWhile Char.isWhitespace).reverse

/-- Apply the sign of a parsed float literal. -/
def floatVal (neg : Bool) (q : ℚ) : ℚ :=
  if neg then -q else q

/-- Python `float(s)` on the decimal literals this script receives:
optional whitespace, optional sign, digits with an optional fractional
part (exponents and the special float values are out of scope).  `none`
models the `ValueError` that `float` raises on anything else. -/
def parseFloat (s : String) : Option ℚ :=
  let t := trimChars s.data
  let signed : Bool × List Char :=
    match t with
    | '-' :: rest => (true, rest)
    | _ => (false, t)
  let neg := signed.1
  match pySplit '.' signed.2 with
  | [w] =>
      if w ≠ [] ∧ w.all Char.isDigit then
        some (floatVal neg (mkRat (digitsVal w) 1))
      else none
  | [w, f] =>
      if (w ≠ [] ∨ f ≠ []) ∧ w.all Char.isDigit ∧ f.all Char.isDigit then
        some (floatVal neg
          (mkRat (digitsVal w * 10 ^ f.length + digitsVal f) (10 ^ f.length)))
      else none
  | _ => none

/-- Lines 102-103: split the semicolon-separated offsets text (empty text
gives the empty list) and convert each piece with `float`, raising — the
`.error` case — at the first piece `float` rejects. -/
def parseOffsets (s : String) : Except String (List ℚ) :=
  let parts := if s = "" then [] else (pySplit ';' s.data).map List.asString
  parts.foldr
    (fun p acc =>
      match parseFloat p, acc with
      | some q, Except.ok l => Except.ok (q :: l)
      | none, _ => Except.error ("could not convert string to float: " ++ p)
      | some _, Except.error e => Except.error e)
    (Except.ok [])

/-- The script's tool parameters, as the hosting framework hands them over:
`GetParameterAsText` yields `""` for a missing parameter, `GetParameter(4)`
yields the boolean. -/
structure Params where
  dem_input : String
  observer_input : String
  observer_offsets_input : String
  outer_radius_input : String
  use_atmospheric_refraction : Bool
deriving Repr, DecidableEq

/-- Lines 92-122: the body of the `__main__` try block.  Reads and
converts the parameters, validates them, sets the workspace, and calls
`generate_individual_viewsheds`; `.error` is an exception escaping the
try body (including one propagated out of the called function). -/
def script_attempt (eng : Engine) (env : ArcEnv) (layer : ObserverLayer)
    (p : Params) : Except String RunResult :=
  match parseFloat p.outer_radius_input with
  | none =>
      Except.error
        ("could not convert string to float: " ++ p.outer_radius_input)
  | some outer_radius =>
    match parseOffsets p.observer_offsets_input with
    | Except.error e => Except.error e
    | Except.ok observer_offsets =>
      if p.dem_input = "" ∨ p.observer_input = "" then
        Except.error "Both DEM and Observer inputs are required."
      else if observer_offsets = [] then
        Except.error "At least one observer offset must be provided."
      else
        let env2 : ArcEnv :=
          { env with workspace := pyOrStr env.workspace env.scratchGDB }
        let r := generate_individual_viewsheds eng env2 p.dem_input layer
          observer_offsets outer_radius p.use_atmospheric_refraction
        match r.error with
        | some e => Except.error e
        | none => Except.ok r

/-- Lines 89-127: the `__main__` block: the try body, with any exception
logged by `AddError("Script failed: ...")` and re-raised. -/
def script_main (eng : Engine) (env : ArcEnv) (layer : ObserverLayer)
    (p : Params) : RunResult :=
  match script_attempt eng env layer p with
  | Except.ok r => r
  | Except.error e =>
      { events := [Event.errorMsg ("Script failed: " ++ e)]
        layer := layer
        error := some e }

/-- The geodatabase path `generate_individual_viewsheds` resolves at line
16 and writes into. -/
def theGDB (env : ArcEnv) : String :=
  (pyOrStr env.workspace env.scratchGDB).getD ""

/-! ### Trace projection lemmas -/

theorem viewshedCalls_nil : viewshedCalls [] = [] := rfl

theorem viewshedCalls_cons_addField (l : List Event) :
    viewshedCalls (Event.addFieldSiteID :: l) = viewshedCalls l := rfl

theorem viewshedCalls_cons_update (n : Nat) (l : List Event) :
    viewshedCalls (Event.updateRow n :: l) = viewshedCalls l := rfl

theorem viewshedCalls_cons_message (s : String) (l : List Event) :
    viewshedCalls (Event.message s :: l) = viewshedCalls l := rfl

theorem viewshedCalls_cons_errorMsg (s : String) (l : List Event) :
    viewshedCalls (Event.errorMsg s :: l) = viewshedCalls l := rfl

theorem viewshedCalls_cons_make (i : Int) (l : List Event) :
    viewshedCalls (Event.makeFeatureLayer i :: l) = viewshedCalls l := rfl

theorem viewshedCalls_cons_save (p : String) (l : List Event) :
    viewshedCalls (Event.saveRaster p :: l) = viewshedCalls l := rfl

theorem viewshedCalls_cons_delete (l : List Event) :
    viewshedCalls (Event.deleteTemp :: l) = viewshedCalls l := rfl

theorem viewshedCalls_cons_call (c : AnalysisCall) (l : List Event) :
    viewshedCalls (Event.viewshed2 c :: l) = c :: viewshedCalls l := rfl

theorem savedPaths_nil : savedPaths [] = [] := rfl

theorem savedPaths_cons_addField (l : List Event) :
    savedPaths (Event.addFieldSiteID :: l) = savedPaths l := rfl

theorem savedPaths_cons_update (n : Nat) (l : List Event) :
    savedPaths (Event.updateRow n :: l) = savedPaths l := rfl

theorem savedPaths_cons_message (s : String) (l : List Event) :
    savedPaths (Event.message s :: l) = savedPaths l := rfl

theorem savedPaths_cons_errorMsg (s : String) (l : List Event) :
    savedPaths (Event.errorMsg s :: l) = savedPaths l := rfl

theorem savedPaths_cons_make (i : Int) (l : List Event) :
    savedPaths (Event.makeFeatureLayer i :: l) = savedPaths l := rfl

theorem savedPaths_cons_call (c : AnalysisCall) (l : List Event) :
    savedPaths (Event.viewshed2 c :: l) = savedPaths l := rfl

theorem savedPaths_cons_delete (l : List Event) :
    savedPaths (Event.deleteTemp :: l) = savedPaths l := rfl

theorem savedPaths_cons_save (p : String) (l : List Event) :
    savedPaths (Event.saveRaster p :: l) = p :: savedPaths l := rfl

theorem viewshedCalls_append (a b : List Event) :
    viewshedCalls (a ++ b) = viewshedCalls a ++ viewshedCalls b := by
  simp [viewshedCalls, List.filterMap_append]

theorem savedPaths_append (a b : List Event) :
    savedPaths (a ++ b) = savedPaths a ++ savedPaths b := by
  simp [savedPaths, List.filterMap_append]

theorem viewshedCalls_flatten (L : List (List Event)) :
    viewshedCalls L.flatten = (L.map viewshedCalls).flatten := by
  induction L with
  | nil => rfl
  | cons h t ih => simp [List.flatten_cons, viewshedCalls_append, ih]

theorem savedPaths_flatten (L : List (List Event)) :
    savedPaths L.flatten = (L.map savedPaths).flatten := by
  induction L with
  | nil => rfl
  | cons h t ih => simp [List.flatten_cons, savedPaths_append, ih]

theorem flattenMapSingleton {α β : Type} (f : α → β) (l : List α) :
    (l.map fun x => [f x]).flatten = l.map f := by
  induction l with
  | nil => rfl
  | cons h t ih => simp [ih]

/-- Every leaf iteration issues exactly one `Viewshed2` call, whether or
not the analysis or the save fails. -/
theorem viewshedCalls_processOffset (eng : Engine) (gdb dem : String)
    (filtered : List Row) (refr : Bool) (rad : ℚ) (sid : Int) (off : ℚ) :
    viewshedCalls (processOffset eng gdb dem filtered refr rad sid off) =
      [mkCall dem filtered refr off rad] := by
  rcases h1 : eng.analyze (mkCall dem filtered refr off rad) with e | u
  · simp [processOffset, h1, viewshedCalls_cons_message,
      viewshedCalls_cons_call, viewshedCalls_cons_errorMsg, viewshedCalls_nil]
  · rcases h2 : eng.save (outputPath gdb sid off) with e | v
    · simp [processOffset, h1, h2, viewshedCalls_cons_message,
        viewshedCalls_cons_call, viewshedCalls_cons_errorMsg,
        viewshedCalls_nil]
    · simp [processOffset, h1, h2, viewshedCalls_cons_message,
        viewshedCalls_cons_call, viewshedCalls_cons_save,
        viewshedCalls_nil]

/-- A leaf iteration saves its raster exactly when both the analysis and
the save succeed. -/
theorem savedPaths_processOffset (eng : Engine) (gdb dem : String)
    (filtered : List Row) (refr : Bool) (rad : ℚ) (sid : Int) (off : ℚ) :
    savedPaths (processOffset eng gdb dem filtered refr rad sid off) =
      (match eng.analyze (mkCall dem filtered refr off rad),
             eng.save (outputPath gdb sid off) with
       | Except.ok _, Except.ok _ => [outputPath gdb sid off]
       | _, _ => []) := by
  rcases h1 : eng.analyze (mkCall dem filtered refr off rad) with e | u
  · simp [processOffset, h1, savedPaths_cons_message, savedPaths_cons_call,
      savedPaths_cons_errorMsg, savedPaths_nil]
  · rcases h2 : eng.save (outputPath gdb sid off) with e | v
    · simp [processOffset, h1, h2, savedPaths_cons_message,
        savedPaths_cons_call, savedPaths_cons_errorMsg, savedPaths_nil]
    · simp [processOffset, h1, h2, savedPaths_cons_message,
        savedPaths_cons_call, savedPaths_cons_save,
        savedPaths_cons_message, savedPaths_nil]

theorem viewshedCalls_processRow (eng : Engine) (gdb dem : String)
    (allRows : List Row) (offsets : List ℚ) (refr : Bool) (rad : ℚ)
    (row : Row) :
    viewshedCalls (processRow eng gdb dem allRows offsets refr rad row) =
      offsets.map fun off =>
        mkCall dem (allRows.filter fun r => r.siteID = row.siteID)
          refr off rad := by
  unfold processRow
  rw [viewshedCalls_cons_make, viewshedCalls_append, viewshedCalls_flatten]
  simp only [List.map_map, Function.comp_def, viewshedCalls_processOffset]
  simp [flattenMapSingleton, viewshedCalls_cons_delete, viewshedCalls_nil]

theorem savedPaths_processRow (eng : Engine) (gdb dem : String)
    (allRows : List Row) (offsets : List ℚ) (refr : Bool) (rad : ℚ)
    (row : Row) :
    savedPaths (processRow eng gdb dem allRows offsets refr rad row) =
      (offsets.map fun off =>
        savedPaths (processOffset eng gdb dem
          (allRows.filter fun r => r.siteID = row.siteID) refr rad
          row.siteID off)).flatten := by
  unfold processRow
  rw [savedPaths_cons_make, savedPaths_append, savedPaths_flatten]
  simp [List.map_map, Function.comp_def, savedPaths_cons_delete,
    savedPaths_nil]

theorem viewshedCalls_ensure (layer : ObserverLayer) :
    viewshedCalls (ensureSiteID layer).2 = [] := by
  unfold ensureSiteID
  by_cases h : "SiteID" ∈ layer.fields
  · simp [h, viewshedCalls_nil]
  · simp only [h, if_neg, ite_false, viewshedCalls_cons_addField]
    simp [viewshedCalls, List.filterMap_eq_nil_iff]

theorem savedPaths_ensure (layer : ObserverLayer) :
    savedPaths (ensureSiteID layer).2 = [] := by
  unfold ensureSiteID
  by_cases h : "SiteID" ∈ layer.fields
  · simp [h, savedPaths_nil]
  · simp only [h, if_neg, ite_false, savedPaths_cons_addField]
    simp [savedPaths, List.filterMap_eq_nil_iff]

/-- Unfolding of a run whose geodatabase is set. -/
theorem generate_events (eng : Engine) (env : ArcEnv) (dem : String)
    (layer : ObserverLayer) (offsets : List ℚ) (rad : ℚ) (refr : Bool)
    (h : truthyStr (pyOrStr env.workspace env.scratchGDB) = true) :
    generate_individual_viewsheds eng env dem layer offsets rad refr =
      { events := (ensureSiteID layer).2 ++
          ((ensureSiteID layer).1.rows.map
            (processRow eng (theGDB env) dem (ensureSiteID layer).1.rows
              offsets refr rad)).flatten ++
          [Event.message "All viewsheds generated successfully."]
        layer := (ensureSiteID layer).1
        error := none } := by
  unfold generate_individual_viewsheds theGDB
  simp [h]

/-- A run with neither workspace nor scratch geodatabase set raises at
once: no events, the layer untouched. -/
theorem generate_no_gdb (eng : Engine) (env : ArcEnv) (dem : String)
    (layer : ObserverLayer) (offsets : List ℚ) (rad : ℚ) (refr : Bool)
    (h : truthyStr (pyOrStr env.workspace env.scratchGDB) = false) :
    generate_individual_viewsheds eng env dem layer offsets rad refr =
      { events := [], layer := layer
        error := some "No current geodatabase is set." } := by
  unfold generate_individual_viewsheds
  simp [h]

/-- The `Viewshed2` calls of a run, one per (observer, offset) pair, the
offset loop nested inside the observer loop, each on the layer filtered to
the current `SiteID`. -/
theorem generate_viewshedCalls (eng : Engine) (env : ArcEnv) (dem : String)
    (layer : ObserverLayer) (offsets : List ℚ) (rad : ℚ) (refr : Bool)
    (h : truthyStr (pyOrStr env.workspace env.scratchGDB) = true) :
    viewshedCalls
        (generate_individual_viewsheds eng env dem layer offsets rad
          refr).events =
      ((ensureSiteID layer).1.rows.map fun row =>
        offsets.map fun off =>
          mkCall dem
            ((ensureSiteID layer).1.rows.filter fun r =>
              r.siteID = row.siteID) refr off rad).flatten := by
  rw [generate_events eng env dem layer offsets rad refr h]
  show viewshedCalls (_ ++ _ ++ _) = _
  rw [viewshedCalls_append, viewshedCalls_append, viewshedCalls_ensure,
    viewshedCalls_flatten]
  simp [List.map_map, Function.comp_def, viewshedCalls_processRow,
    viewshedCalls_cons_message, viewshedCalls_nil]

theorem ensureSiteID_missing (layer : ObserverLayer)
    (h : "SiteID" ∉ layer.fields) :
    ensureSiteID layer =
      ({ fields := layer.fields ++ ["SiteID"]
         rows := layer.rows.map fun r =>
           { r with siteID := (r.objectid : Int) } },
       Event.addFieldSiteID ::
         layer.rows.map fun r => Event.updateRow r.objectid) := by
  simp [ensureSiteID, h]

theorem ensureSiteID_present (layer : ObserverLayer)
    (h : "SiteID" ∈ layer.fields) :
    ensureSiteID layer = (layer, []) := by
  simp [ensureSiteID, h]

/-- A failing analysis, or a failing save after a successful analysis,
leaves the logged failure message in the leaf iteration's events. -/
theorem errorMsg_mem_processOffset (eng : Engine) (gdb dem : String)
    (filtered : List Row) (refr : Bool) (rad : ℚ) (sid : Int) (off : ℚ)
    (e : String)
    (h : eng.analyze (mkCall dem filtered refr off rad) = Except.error e ∨
         (eng.analyze (mkCall dem filtered refr off rad) = Except.ok () ∧
          eng.save (outputPath gdb sid off) = Except.error e)) :
    Event.errorMsg ("Failed to calculate viewshed for SiteID " ++
        toString sid ++ " at offset " ++ toString off ++ ": " ++ e) ∈
      processOffset eng gdb dem filtered refr rad sid off := by
  rcases h with h1 | ⟨h1, h2⟩
  · simp [processOffset, h1]
  · simp [processOffset, h1, h2]

/-- A successful analysis followed by a successful save leaves the save in
the leaf iteration's events. -/
theorem saveRaster_mem_processOffset (eng : Engine) (gdb dem : String)
    (filtered : List Row) (refr : Bool) (rad : ℚ) (sid : Int) (off : ℚ)
    (h1 : eng.analyze (mkCall dem filtered refr off rad) = Except.ok ())
    (h2 : eng.save (outputPath gdb sid off) = Except.ok ()) :
    Event.saveRaster (outputPath gdb sid off) ∈
      processOffset eng gdb dem filtered refr rad sid off := by
  simp [processOffset, h1, h2]

theorem mem_processRow_of_mem_processOffset {eng : Engine}
    {gdb dem : String} {allRows : List Row} {offsets : List ℚ}
    {refr : Bool} {rad : ℚ} {row : Row} {off : ℚ} {e : Event}
    (hoff : off ∈ offsets)
    (he : e ∈ processOffset eng gdb dem
      (allRows.filter fun r => r.siteID = row.siteID) refr rad
      row.siteID off) :
    e ∈ processRow eng gdb dem allRows offsets refr rad row := by
  unfold processRow
  refine List.mem_cons_of_mem _ (List.mem_append_left _ ?_)
  rw [List.mem_flatten]
  exact ⟨_, List.mem_map_of_mem _ hoff, he⟩

theorem mem_generate_of_mem_processRow {eng : Engine} {env : ArcEnv}
    {dem : String} {layer : ObserverLayer} {offsets : List ℚ} {rad : ℚ}
    {refr : Bool} {row : Row} {e : Event}
    (h : truthyStr (pyOrStr env.workspace env.scratchGDB) = true)
    (hrow : row ∈ (ensureSiteID layer).1.rows)
    (he : e ∈ processRow eng (theGDB env) dem (ensureSiteID layer).1.rows
      offsets refr rad row) :
    e ∈ (generate_individual_viewsheds eng env dem layer offsets rad
      refr).events := by
  rw [generate_events eng env dem layer offsets rad refr h]
  show e ∈ _ ++ _ ++ _
  refine List.mem_append_left _ (List.mem_append_right _ ?_)
  rw [List.mem_flatten]
  exact ⟨_, List.mem_map_of_mem _ hrow, he⟩

/-- In a row list whose `SiteID` values are pairwise distinct, the filter
`SiteID = row.siteID` isolates exactly the current row. -/
theorem filter_siteID_eq_singleton {rows : List Row}
    (hnd : (rows.map Row.siteID).Nodup) {row : Row} (hrow : row ∈ rows) :
    (rows.filter fun r => r.siteID = row.siteID) = [row] := by
  induction rows with
  | nil => cases hrow
  | cons x xs ih =>
      rw [List.map_cons, List.nodup_cons] at hnd
      rcases List.mem_cons.mp hrow with heq | hx
      · rw [List.filter_cons_of_pos (by simp [heq])]
        have hnil : (xs.filter fun r => r.siteID = row.siteID) = [] := by
          rw [List.filter_eq_nil_iff]
          intro r hr
          simp only [decide_eq_true_eq]
          intro hrs
          have h1 : r.siteID ∈ xs.map Row.siteID :=
            List.mem_map_of_mem Row.siteID hr
          rw [hrs, heq] at h1
          exact absurd h1 hnd.1
        rw [hnil, heq]
      · have hne : ¬(x.siteID = row.siteID) := by
          intro hxr
          have : row.siteID ∈ xs.map Row.siteID :=
            List.mem_map_of_mem Row.siteID hx
          exact hnd.1 (hxr ▸ this)
        rw [List.filter_cons_of_neg (by simp [hne])]
        exact ih hnd.2 hx

/-- Flattening lists that are each an `Option.toList` is a `filterMap`. -/
theorem flatten_map_eq_filterMap {α β : Type} (f : α → List β)
    (g : α → Option β) (hfg : ∀ x, f x = (g x).toList) (l : List α) :
    (l.map f).flatten = l.filterMap g := by
  induction l with
  | nil => rfl
  | cons x xs ih =>
      rcases hgx : g x with _ | b <;>
        simp [List.filterMap_cons, hfg, hgx, ih]

/-- An exception escaping the try body is logged and re-raised. -/
theorem script_main_of_attempt_error {eng : Engine} {env : ArcEnv}
    {layer : ObserverLayer} {p : Params} {e : String}
    (h : script_attempt eng env layer p = Except.error e) :
    script_main eng env layer p =
      { events := [Event.errorMsg ("Script failed: " ++ e)]
        layer := layer
        error := some e } := by
  unfold script_main
  rw [h]

/-! ### Concrete fixtures for witnesses and counterexamples -/

/-- An engine whose analysis and save always succeed. -/
def engineOK : Engine :=
  ⟨fun _ => Except.ok (), fun _ => Except.ok ()⟩

/-- An engine whose `Viewshed2` analysis always raises. -/
def engineAnalyzeFails : Engine :=
  ⟨fun _ => Except.error "ERROR 010240", fun _ => Except.ok ()⟩

/-- A one-point observer layer without a `SiteID` field. -/
def layerOnePoint : ObserverLayer :=
  ⟨["OBJECTID", "Shape"], [⟨1, 0⟩]⟩

/-- A two-point observer layer without a `SiteID` field. -/
def layerTwoPoints : ObserverLayer :=
  ⟨["OBJECTID", "Shape"], [⟨1, 0⟩, ⟨2, 0⟩]⟩

/-- A two-point observer layer whose pre-existing `SiteID` field holds the
duplicate value 7 in both rows. -/
def layerDupSiteID : ObserverLayer :=
  ⟨["OBJECTID", "Shape", "SiteID"], [⟨1, 7⟩, ⟨2, 7⟩]⟩

/-- An environment with a current workspace set. -/
def envGDB : ArcEnv := ⟨some "work.gdb", none⟩

/-! ### Claims -/

/-- C1: in every run of `generate_individual_viewsheds` (with a
geodatabase set, otherwise the function raises before the loop), a failure
raised by the `Viewshed2` analysis call — or by the subsequent save — for
one (observer, offset) pair is caught: the run still returns normally
(`error = none`), the per-pair failure message is logged, and every
(observer, offset) pair still receives its analysis call, so iteration
proceeded past the failure. -/
theorem C1_analysis_failures_caught_loop_continues (eng : Engine)
    (env : ArcEnv) (dem : String) (layer : ObserverLayer)
    (offsets : List ℚ) (rad : ℚ) (refr : Bool)
    (h : truthyStr (pyOrStr env.workspace env.scratchGDB) = true) :
    (generate_individual_viewsheds eng env dem layer offsets rad
        refr).error = none ∧
    viewshedCalls
        (generate_individual_viewsheds eng env dem layer offsets rad
          refr).events =
      ((ensureSiteID layer).1.rows.map fun row =>
        offsets.map fun off =>
          mkCall dem
            ((ensureSiteID layer).1.rows.filter fun r =>
              r.siteID = row.siteID) refr off rad).flatten ∧
    ∀ row ∈ (ensureSiteID layer).1.rows, ∀ off ∈ offsets, ∀ e : String,
      (eng.analyze (mkCall dem
          ((ensureSiteID layer).1.rows.filter fun r =>
            r.siteID = row.siteID) refr off rad) = Except.error e ∨
       (eng.analyze (mkCall dem
          ((ensureSiteID layer).1.rows.filter fun r =>
            r.siteID = row.siteID) refr off rad) = Except.ok () ∧
        eng.save (outputPath (theGDB env) row.siteID off) =
          Except.error e)) →
      Event.errorMsg ("Failed to calculate viewshed for SiteID " ++
          toString row.siteID ++ " at offset " ++ toString off ++ ": " ++
          e) ∈
        (generate_individual_viewsheds eng env dem layer offsets rad
          refr).events := by
  refine ⟨?_, generate_viewshedCalls eng env dem layer offsets rad refr h,
    ?_⟩
  · rw [generate_events eng env dem layer offsets rad refr h]
  · intro row hrow off hoff e he
    exact mem_generate_of_mem_processRow h hrow
      (mem_processRow_of_mem_processOffset hoff
        (errorMsg_mem_processOffset eng (theGDB env) dem _ refr rad
          row.siteID off e he))

theorem C1_witness :
    truthyStr (pyOrStr envGDB.workspace envGDB.scratchGDB) = true ∧
    (generate_individual_viewsheds engineAnalyzeFails envGDB "dem"
        layerOnePoint [2] 1000 true).error = none ∧
    Event.errorMsg ("Failed to calculate viewshed for SiteID " ++
        toString (1 : Int) ++ " at offset " ++ toString (2 : ℚ) ++ ": " ++
        "ERROR 010240") ∈
      (generate_individual_viewsheds engineAnalyzeFails envGDB "dem"
        layerOnePoint [2] 1000 true).events :=
  ⟨by decide,
   (C1_analysis_failures_caught_loop_continues engineAnalyzeFails envGDB
     "dem" layerOnePoint [2] 1000 true (by decide)).1,
   (C1_analysis_failures_caught_loop_continues engineAnalyzeFails envGDB
     "dem" layerOnePoint [2] 1000 true (by decide)).2.2 ⟨1, 1⟩ (by decide)
     2 (by decide) "ERROR 010240" (Or.inl rfl)⟩

/-- C2: if the offset-list parameter is the empty string (how the hosting
framework reports a missing parameter), the script raises before any
`Viewshed2` call: the run ends with a propagated error and its trace holds
no analysis call. -/
theorem C2_missing_offsets_raise_before_analysis (eng : Engine)
    (env : ArcEnv) (layer : ObserverLayer) (p : Params)
    (h : p.observer_offsets_input = "") :
    ∃ e, (script_main eng env layer p).error = some e ∧
      viewshedCalls (script_main eng env layer p).events = [] := by
  have hoff : parseOffsets p.observer_offsets_input = Except.ok [] := by
    rw [h]; decide
  rcases hpf : parseFloat p.outer_radius_input with _ | q
  · have ha : script_attempt eng env layer p = Except.error
        ("could not convert string to float: " ++ p.outer_radius_input) :=
      by unfold script_attempt; rw [hpf]
    refine ⟨"could not convert string to float: " ++ p.outer_radius_input,
      ?_, ?_⟩
    · rw [script_main_of_attempt_error ha]
    · rw [script_main_of_attempt_error ha]; rfl
  · by_cases hd : p.dem_input = "" ∨ p.observer_input = ""
    · have ha : script_attempt eng env layer p = Except.error
          "Both DEM and Observer inputs are required." := by
        unfold script_attempt
        rw [hpf, hoff]
        simp [hd]
      refine ⟨"Both DEM and Observer inputs are required.", ?_, ?_⟩
      · rw [script_main_of_attempt_error ha]
      · rw [script_main_of_attempt_error ha]; rfl
    · have ha : script_attempt eng env layer p = Except.error
          "At least one observer offset must be provided." := by
        unfold script_attempt
        rw [hpf, hoff]
        simp [hd]
      refine ⟨"At least one observer offset must be provided.", ?_, ?_⟩
      · rw [script_main_of_attempt_error ha]
      · rw [script_main_of_attempt_error ha]; rfl

theorem C2_witness :
    (Params.mk "dem" "obs" "" "1000" true).observer_offsets_input = "" ∧
    ∃ e, (script_main engineOK envGDB layerOnePoint
        (Params.mk "dem" "obs" "" "1000" true)).error = some e ∧
      viewshedCalls (script_main engineOK envGDB layerOnePoint
        (Params.mk "dem" "obs" "" "1000" true)).events = [] :=
  ⟨rfl, C2_missing_offsets_raise_before_analysis engineOK envGDB
    layerOnePoint (Params.mk "dem" "obs" "" "1000" true) rfl⟩

/-- C3: every generated output raster name ends in the truncated integer
value of the offset followed by "m"; in particular the offsets string
"2;10" parses to the offsets 2 and 10, whose names end in "_2m" and
"_10m". -/
theorem C3_output_names_end_in_truncated_offset :
    parseOffsets "2;10" = Except.ok [2, 10] ∧
    (∀ site_id : Int, ∀ offset : ℚ, ∃ stem : String,
        output_name site_id offset =
          stem ++ "_" ++ toString (ratTrunc offset) ++ "m") ∧
    (∀ site_id : Int, ∃ stem2 stem10 : String,
        output_name site_id 2 = stem2 ++ "_2m" ∧
        output_name site_id 10 = stem10 ++ "_10m") := by
  refine ⟨by decide,
    fun site_id offset => ⟨"vshed_" ++ toString site_id, rfl⟩,
    fun site_id => ⟨"vshed_" ++ toString site_id,
      "vshed_" ++ toString site_id, ?_, ?_⟩⟩
  · rw [show output_name site_id 2 =
        ("vshed_" ++ toString site_id) ++ "_" ++ toString (ratTrunc 2) ++
          "m" from rfl,
      show toString (ratTrunc 2) = "2" from by decide,
      String.append_assoc, String.append_assoc]
    rfl
  · rw [show output_name site_id 10 =
        ("vshed_" ++ toString site_id) ++ "_" ++ toString (ratTrunc 10) ++
          "m" from rfl,
      show toString (ratTrunc 10) = "10" from by decide,
      String.append_assoc, String.append_assoc]
    rfl

/-- C4: when the observer layer lacks the "SiteID" field, the run adds
that field and populates it with the row's OBJECTID through exactly one
update-cursor write per row (the update events are exactly one `updateRow`
per row, in row order); when the field is already present, the layer is
returned untouched and no field/update event is emitted.  The run's final
layer is the one `ensureSiteID` produces, and the field work happens
before all loop events. -/
theorem C4_siteid_field_added_and_populated_once (eng : Engine)
    (env : ArcEnv) (dem : String) (layer : ObserverLayer)
    (offsets : List ℚ) (rad : ℚ) (refr : Bool)
    (h : truthyStr (pyOrStr env.workspace env.scratchGDB) = true) :
    (generate_individual_viewsheds eng env dem layer offsets rad
        refr).layer = (ensureSiteID layer).1 ∧
    (∃ rest, (generate_individual_viewsheds eng env dem layer offsets rad
        refr).events = (ensureSiteID layer).2 ++ rest) ∧
    ("SiteID" ∉ layer.fields →
      (ensureSiteID layer).1.fields = layer.fields ++ ["SiteID"] ∧
      (ensureSiteID layer).1.rows =
        (layer.rows.map fun r =>
          { r with siteID := (r.objectid : Int) }) ∧
      (ensureSiteID layer).2 = Event.addFieldSiteID ::
        (layer.rows.map fun r => Event.updateRow r.objectid)) ∧
    ("SiteID" ∈ layer.fields → ensureSiteID layer = (layer, [])) := by
  refine ⟨?_, ?_, fun hm => ?_, fun hp => ensureSiteID_present layer hp⟩
  · rw [generate_events eng env dem layer offsets rad refr h]
  · refine ⟨((ensureSiteID layer).1.rows.map
      (processRow eng (theGDB env) dem (ensureSiteID layer).1.rows offsets
        refr rad)).flatten ++
      [Event.message "All viewsheds generated successfully."], ?_⟩
    rw [generate_events eng env dem layer offsets rad refr h]
    show _ ++ _ ++ _ = _ ++ (_ ++ _)
    rw [List.append_assoc]
  · rw [ensureSiteID_missing layer hm]
    exact ⟨rfl, rfl, rfl⟩

theorem C4_witness :
    truthyStr (pyOrStr envGDB.workspace envGDB.scratchGDB) = true ∧
    "SiteID" ∉ layerTwoPoints.fields ∧
    ((ensureSiteID layerTwoPoints).1.fields =
        layerTwoPoints.fields ++ ["SiteID"] ∧
      (ensureSiteID layerTwoPoints).1.rows =
        (layerTwoPoints.rows.map fun r =>
          { r with siteID := (r.objectid : Int) }) ∧
      (ensureSiteID layerTwoPoints).2 = Event.addFieldSiteID ::
        (layerTwoPoints.rows.map fun r => Event.updateRow r.objectid)) :=
  ⟨by decide, by decide,
   (C4_siteid_field_added_and_populated_once engineOK envGDB "dem"
     layerTwoPoints [2] 1000 true (by decide)).2.2.1 (by decide)⟩

/-- C5 counterexample: with an engine whose analysis always raises, a run
over one observer and one offset completes normally (`error = none`), yet
no raster at all is saved although one (observer, offset) pair exists — so
a completing run does not write one raster per pair. -/
theorem C5_counterexample :
    (generate_individual_viewsheds engineAnalyzeFails envGDB "dem"
        layerOnePoint [2] 1000 true).error = none ∧
    (ensureSiteID layerOnePoint).1.rows.length = 1 ∧
    ([2] : List ℚ).length = 1 ∧
    savedPaths (generate_individual_viewsheds engineAnalyzeFails envGDB
        "dem" layerOnePoint [2] 1000 true).events = [] := by
  decide

/-- C5 (amended): for every run that completes with a geodatabase set, one
output raster is saved into that geodatabase, under the generated name,
for each (observer, offset) pair whose analysis call and raster save both
succeed — and only for those pairs. -/
theorem C5_rasters_saved_for_successful_pairs (eng : Engine)
    (env : ArcEnv) (dem : String) (layer : ObserverLayer)
    (offsets : List ℚ) (rad : ℚ) (refr : Bool)
    (h : truthyStr (pyOrStr env.workspace env.scratchGDB) = true) :
    (generate_individual_viewsheds eng env dem layer offsets rad
        refr).error = none ∧
    savedPaths (generate_individual_viewsheds eng env dem layer offsets
        rad refr).events =
      ((ensureSiteID layer).1.rows.map fun row =>
        offsets.filterMap fun off =>
          match eng.analyze (mkCall dem
                  ((ensureSiteID layer).1.rows.filter fun r =>
                    r.siteID = row.siteID) refr off rad),
                eng.save (outputPath (theGDB env) row.siteID off) with
          | Except.ok _, Except.ok _ =>
              some (outputPath (theGDB env) row.siteID off)
          | _, _ => none).flatten := by
  constructor
  · rw [generate_events eng env dem layer offsets rad refr h]
  · rw [generate_events eng env dem layer offsets rad refr h]
    show savedPaths (_ ++ _ ++ _) = _
    rw [savedPaths_append, savedPaths_append, savedPaths_ensure,
      savedPaths_flatten]
    simp only [List.map_map, Function.comp_def, savedPaths_processRow,
      savedPaths_cons_message, savedPaths_nil, List.append_nil,
      List.nil_append]
    have hrow : ∀ row : Row,
        (offsets.map fun off =>
          savedPaths (processOffset eng (theGDB env) dem
            ((ensureSiteID layer).1.rows.filter fun r =>
              r.siteID = row.siteID) refr rad row.siteID off)).flatten =
        offsets.filterMap fun off =>
          match eng.analyze (mkCall dem
                  ((ensureSiteID layer).1.rows.filter fun r =>
                    r.siteID = row.siteID) refr off rad),
                eng.save (outputPath (theGDB env) row.siteID off) with
          | Except.ok _, Except.ok _ =>
              some (outputPath (theGDB env) row.siteID off)
          | _, _ => none := by
      intro row
      refine flatten_map_eq_filterMap _ _ (fun off => ?_) offsets
      rw [savedPaths_processOffset]
      rcases eng.analyze (mkCall dem
        ((ensureSiteID layer).1.rows.filter fun r =>
          r.siteID = row.siteID) refr off rad) with e | u
      · rfl
      · rcases eng.save (outputPath (theGDB env) row.siteID off)
          with e | v <;> rfl
    simp only [hrow]

theorem C5_witness :
    truthyStr (pyOrStr envGDB.workspace envGDB.scratchGDB) = true ∧
    (generate_individual_viewsheds engineOK envGDB "dem" layerOnePoint
        [2] 1000 true).error = none ∧
    savedPaths (generate_individual_viewsheds engineOK envGDB "dem"
        layerOnePoint [2] 1000 true).events = ["work.gdb/vshed_1_2m"] :=
  ⟨by decide,
   (C5_rasters_saved_for_successful_pairs engineOK envGDB "dem"
     layerOnePoint [2] 1000 true (by decide)).1,
   by decide⟩

/-- C6 counterexample: with a pre-existing "SiteID" field holding the
duplicate value 7 in both rows, every analysis call receives the layer
filtered to TWO observers, not exactly one. -/
theorem C6_counterexample :
    layerDupSiteID.rows.map Row.siteID = [7, 7] ∧
    ¬ ∀ c ∈ viewshedCalls (generate_individual_viewsheds engineOK envGDB
        "dem" layerDupSiteID [2] 1000 true).events,
      c.in_observer_features.length = 1 := by
  decide

/-- C6 (amended): each leaf iteration performs exactly one external
analysis call — the calls of a run are exactly one per (observer, offset)
pair, the offset loop nested inside the observer loop — and that call
receives the feature layer filtered by "SiteID" to the rows whose SiteID
equals the current one; when the SiteID values are pairwise distinct (in
particular whenever the script itself just populated them from OBJECTID),
that filter isolates exactly one observer. -/
theorem C6_one_call_per_leaf_filtered_by_siteid (eng : Engine)
    (env : ArcEnv) (dem : String) (layer : ObserverLayer)
    (offsets : List ℚ) (rad : ℚ) (refr : Bool)
    (h : truthyStr (pyOrStr env.workspace env.scratchGDB) = true) :
    viewshedCalls (generate_individual_viewsheds eng env dem layer offsets
        rad refr).events =
      ((ensureSiteID layer).1.rows.map fun row =>
        offsets.map fun off =>
          mkCall dem
            ((ensureSiteID layer).1.rows.filter fun r =>
              r.siteID = row.siteID) refr off rad).flatten ∧
    (((ensureSiteID layer).1.rows.map Row.siteID).Nodup →
      ∀ row ∈ (ensureSiteID layer).1.rows,
        ((ensureSiteID layer).1.rows.filter fun r =>
          r.siteID = row.siteID) = [row]) :=
  ⟨generate_viewshedCalls eng env dem layer offsets rad refr h,
   fun hnd row hrow => filter_siteID_eq_singleton hnd hrow⟩

theorem C6_witness :
    truthyStr (pyOrStr envGDB.workspace envGDB.scratchGDB) = true ∧
    ((ensureSiteID layerOnePoint).1.rows.map Row.siteID).Nodup ∧
    (⟨1, 1⟩ : Row) ∈ (ensureSiteID layerOnePoint).1.rows ∧
    ((ensureSiteID layerOnePoint).1.rows.filter fun r =>
      r.siteID = (⟨1, 1⟩ : Row).siteID) = [⟨1, 1⟩] :=
  ⟨by decide, by decide, by decide,
   (C6_one_call_per_leaf_filtered_by_siteid engineOK envGDB "dem"
     layerOnePoint [2] 1000 true (by decide)).2 (by decide) ⟨1, 1⟩
     (by decide)⟩

/-- C7: when the DEM parameter or the observer-layer parameter is missing
(empty), the script raises before any analysis (its trace holds no
`Viewshed2` call), the error is logged as "Script failed: ..." and the
exception is re-raised (propagates as the run's error). -/
theorem C7_missing_required_inputs_raise_logged (eng : Engine)
    (env : ArcEnv) (layer : ObserverLayer) (p : Params)
    (h : p.dem_input = "" ∨ p.observer_input = "") :
    ∃ e, (script_main eng env layer p).error = some e ∧
      (script_main eng env layer p).events =
        [Event.errorMsg ("Script failed: " ++ e)] ∧
      viewshedCalls (script_main eng env layer p).events = [] := by
  rcases hpf : parseFloat p.outer_radius_input with _ | q
  · have ha : script_attempt eng env layer p = Except.error
        ("could not convert string to float: " ++ p.outer_radius_input) :=
      by unfold script_attempt; rw [hpf]
    refine ⟨"could not convert string to float: " ++ p.outer_radius_input,
      ?_, ?_, ?_⟩ <;> rw [script_main_of_attempt_error ha]
    rfl
  · rcases hpo : parseOffsets p.observer_offsets_input with e0 | l
    · have ha : script_attempt eng env layer p = Except.error e0 := by
        unfold script_attempt
        rw [hpf, hpo]
      refine ⟨e0, ?_, ?_, ?_⟩ <;> rw [script_main_of_attempt_error ha]
      rfl
    · have ha : script_attempt eng env layer p = Except.error
          "Both DEM and Observer inputs are required." := by
        unfold script_attempt
        rw [hpf, hpo]
        simp [h]
      refine ⟨"Both DEM and Observer inputs are required.", ?_, ?_, ?_⟩ <;>
        rw [script_main_of_attempt_error ha]
      rfl

theorem C7_witness :
    ((Params.mk "" "obs" "2;10" "1000" true).dem_input = "" ∨
      (Params.mk "" "obs" "2;10" "1000" true).observer_input = "") ∧
    ∃ e, (script_main engineOK envGDB layerOnePoint
        (Params.mk "" "obs" "2;10" "1000" true)).error = some e ∧
      (script_main engineOK envGDB layerOnePoint
        (Params.mk "" "obs" "2;10" "1000" true)).events =
        [Event.errorMsg ("Script failed: " ++ e)] ∧
      viewshedCalls (script_main engineOK envGDB layerOnePoint
        (Params.mk "" "obs" "2;10" "1000" true)).events = [] :=
  ⟨Or.inl rfl, C7_missing_required_inputs_raise_logged engineOK envGDB
    layerOnePoint (Params.mk "" "obs" "2;10" "1000" true) (Or.inl rfl)⟩

/-- C8: every `Viewshed2` call of a run passes the refractivity
coefficient 0.13 (= 13/100) when the refraction flag is true and 0 when it
is false, and always passes surface offset 0. -/
theorem C8_refractivity_and_surface_offset (eng : Engine) (env : ArcEnv)
    (dem : String) (layer : ObserverLayer) (offsets : List ℚ) (rad : ℚ)
    (refr : Bool) :
    mkRat 13 100 = 13 / 100 ∧
    ∀ c ∈ viewshedCalls (generate_individual_viewsheds eng env dem layer
        offsets rad refr).events,
      c.refractivity_coefficient = (if refr then mkRat 13 100 else 0) ∧
      c.surface_offset = 0 := by
  refine ⟨by norm_num [Rat.mkRat_eq_div], fun c hc => ?_⟩
  rcases ht : truthyStr (pyOrStr env.workspace env.scratchGDB) with _ | _
  · rw [generate_no_gdb eng env dem layer offsets rad refr ht] at hc
    cases hc
  · rw [generate_viewshedCalls eng env dem layer offsets rad refr ht]
      at hc
    rw [List.mem_flatten] at hc
    obtain ⟨l, hl, hcl⟩ := hc
    obtain ⟨row, _, rfl⟩ := List.mem_map.mp hl
    obtain ⟨off, _, rfl⟩ := List.mem_map.mp hcl
    exact ⟨rfl, rfl⟩

theorem C8_witness :
    mkCall "dem" [⟨1, 1⟩] true 2 1000 ∈
      viewshedCalls (generate_individual_viewsheds engineOK envGDB "dem"
        layerOnePoint [2] 1000 true).events ∧
    ((mkCall "dem" [⟨1, 1⟩] true 2 1000).refractivity_coefficient =
        (if true then mkRat 13 100 else 0) ∧
      (mkCall "dem" [⟨1, 1⟩] true 2 1000).surface_offset = 0) :=
  ⟨by decide,
   (C8_refractivity_and_surface_offset engineOK envGDB "dem" layerOnePoint
     [2] 1000 true).2 (mkCall "dem" [⟨1, 1⟩] true 2 1000) (by decide)⟩

/-- C9: two distinct offsets with equal integer truncation — here 2 and
2.5 (= 5/2 = `mkRat 5 2`) — produce the same generated output name for a
fixed observer, so in the run over offsets [2, 2.5] both results are saved
to the same output path: output names are not unique across
(observer, offset) pairs. -/
theorem C9_truncated_offsets_collide :
    mkRat 5 2 = 5 / 2 ∧
    mkRat 5 2 ≠ (2 : ℚ) ∧
    output_name 1 2 = output_name 1 (mkRat 5 2) ∧
    savedPaths (generate_individual_viewsheds engineOK envGDB "dem"
        layerOnePoint [2, mkRat 5 2] 1000 true).events =
      ["work.gdb/vshed_1_2m", "work.gdb/vshed_1_2m"] :=
  ⟨by norm_num [Rat.mkRat_eq_div], by decide, by decide, by decide⟩

/-- C10: when neither a current workspace nor a scratch geodatabase is set
(both unset or empty), `generate_individual_viewsheds` raises the
RuntimeError "No current geodatabase is set." with an empty event trace —
before any read or write of the observer layer and before any analysis
call — and returns the observer layer unchanged. -/
theorem C10_no_gdb_raises_untouched (eng : Engine) (env : ArcEnv)
    (dem : String) (layer : ObserverLayer) (offsets : List ℚ) (rad : ℚ)
    (refr : Bool)
    (h : truthyStr (pyOrStr env.workspace env.scratchGDB) = false) :
    generate_individual_viewsheds eng env dem layer offsets rad refr =
      { events := [], layer := layer
        error := some "No current geodatabase is set." } :=
  generate_no_gdb eng env dem layer offsets rad refr h

theorem C10_witness :
    truthyStr (pyOrStr (ArcEnv.mk none none).workspace
      (ArcEnv.mk none none).scratchGDB) = false ∧
    generate_individual_viewsheds engineOK (ArcEnv.mk none none) "dem"
        layerOnePoint [2] 1000 true =
      { events := [], layer := layerOnePoint
        error := some "No current geodatabase is set." } :=
  ⟨by decide,
   C10_no_gdb_raises_untouched engineOK (ArcEnv.mk none none) "dem"
     layerOnePoint [2] 1000 true (by decide)⟩
